import Mathlib

/-!
Shallow embedding of the SlayerGame server core (src/unnamed/part_000).

The repository holds one server file in two storage variants (PostgreSQL
and better-sqlite3); the handler logic is textually identical in both, so
one embedding covers both.  Machine integers are modelled as `Int`
(`INTEGER` columns can hold negative values and JavaScript numbers are
unbounded in the relevant range); timestamps as `Nat`.
-/

/-- One row of the `players` table (columns in declaration order, minus the
surrogate `id` / `created_at` which no claim touches). -/
structure Player where
  name : String
  gender : String
  level : Int
  exp : Int
  hp : Int
  max_hp : Int
  gold : Int
  gems : Int
  weapon : String
  str : Int
  dex : Int
  vit : Int
  stat_points : Int
  language : String
  theme_color : String
  last_save : Nat
  deriving Repr, DecidableEq

/-- The body of a `/api/player/train` request:
`const { str, dex, vit, pointsSpent } = req.body`. -/
structure TrainRequest where
  str : Int
  dex : Int
  vit : Int
  pointsSpent : Int
  deriving Repr, DecidableEq

/-- The `/api/player/train` handler.  `player` is the row fetched by
`SELECT * FROM players WHERE id = ?` (`none` when no row exists), `now` the
value of `CURRENT_TIMESTAMP` taken by the UPDATE.  Mirrors:

    if (!player || player.stat_points < pointsSpent) {
      return res.status(400).json({ error: "Insufficient stat points" });
    }
    const newMaxHp = 100 + ((player.vit + vit) * 10);
    UPDATE players SET str = str + ?, dex = dex + ?, vit = vit + ?,
      stat_points = stat_points - ?, max_hp = ?, last_save = CURRENT_TIMESTAMP
-/
def train (player : Option Player) (req : TrainRequest) (now : Nat) :
    Except String Player :=
  match player with
  | none => .error "Insufficient stat points"
  | some p =>
    if p.stat_points < req.pointsSpent then
      .error "Insufficient stat points"
    else
      .ok { p with
        str := p.str + req.str
        dex := p.dex + req.dex
        vit := p.vit + req.vit
        stat_points := p.stat_points - req.pointsSpent
        max_hp := 100 + (p.vit + req.vit) * 10
        last_save := now }

/-- One row of the `achievements` table. -/
structure Achievement where
  id : String
  title_en : String
  title_th : String
  description_en : String
  description_th : String
  icon : String
  requirement_type : String
  requirement_value : Int
  deriving Repr, DecidableEq

/-- The per-entry requirement test inside `/api/player/check-achievements`:

    let isMet = false;
    if (ach.requirement_type === 'level' && player.level >= ach.requirement_value) isMet = true;
    if (ach.requirement_type === 'str' && player.str >= ach.requirement_value) isMet = true;
    if (ach.requirement_type === 'gold' && player.gold >= ach.requirement_value) isMet = true;
-/
def isMet (p : Player) (ach : Achievement) : Bool :=
  (ach.requirement_type == "level" && decide (p.level ≥ ach.requirement_value))
  || (ach.requirement_type == "str" && decide (p.str ≥ ach.requirement_value))
  || (ach.requirement_type == "gold" && decide (p.gold ≥ ach.requirement_value))

/-- The `/api/player/check-achievements` loop.  `catalog` is the result of
`SELECT * FROM achievements` (in insertion order), `unlockedIds` the snapshot
of the player's unlock records taken before the loop.  The loop pushes onto
`newlyUnlocked` exactly those catalog entries whose id is not in the snapshot
and whose requirement is met; the snapshot is not updated during the loop. -/
def checkAchievements (p : Player) (catalog : List Achievement)
    (unlockedIds : List String) : List Achievement :=
  catalog.filter fun ach => !(unlockedIds.contains ach.id) && isMet p ach

/-- The unlock-record set after one `/api/player/check-achievements` call: the
handler INSERTs one `player_achievements` row per newly unlocked entry. -/
def unlockedAfter (p : Player) (catalog : List Achievement)
    (unlockedIds : List String) : List String :=
  unlockedIds ++ (checkAchievements p catalog unlockedIds).map Achievement.id

/-- The row inserted by `createPlayer` (the `INSERT INTO players` helper),
with the two columns it omits (`theme_color`, `last_save`) filled by their
schema defaults. -/
def defaultPlayer (name gender : String) (now : Nat) : Player :=
  { name := name
    gender := gender
    level := 1
    exp := 0
    hp := 100
    max_hp := 100
    gold := 500
    gems := 50
    weapon := "Wooden Sword"
    str := 1
    dex := 1
    vit := 1
    stat_points := 5
    language := "EN"
    theme_color := "#ef4444"
    last_save := now }

/-- The `/api/me` handler over a functional store `uid -> row`:

    let player = SELECT * FROM players WHERE id = req.user.id;
    if (!player) { createPlayer(req.user.id, req.user.username); player = SELECT ...; }
    res.json({ user, player });

`createPlayer` is called with its `gender` parameter defaulted to 'Male'.
Returns the store after the call and the row sent to the caller. -/
def getMe (store : Nat → Option Player) (uid : Nat) (uname : String)
    (now : Nat) : (Nat → Option Player) × Player :=
  match store uid with
  | some p => (store, p)
  | none =>
    let p := defaultPlayer uname "Male" now
    (fun i => if i = uid then some p else store i, p)

/-- JavaScript truthiness of an optional string field of `req.body`
(`undefined` and the empty string are falsy). -/
def truthy (s : Option String) : Bool :=
  match s with
  | none => false
  | some x => x != ""

/-- The player-mutating requests a record can receive over its lifetime
(each carries the `CURRENT_TIMESTAMP` where the handler uses one). -/
inductive Op where
  | train (req : TrainRequest) (now : Nat)
  | save (now : Nat)
  | settings (language theme_color : Option String)
  | updateName (name : String)
  deriving Repr, DecidableEq

/-- Effect of one request on an existing player row, mirroring the four
mutating handlers; a failed train (400 response) performs no UPDATE. -/
def applyOp (p : Player) : Op → Player
  | .train req now =>
    match train (some p) req now with
    | .ok q => q
    | .error _ => p
  | .save now => { p with last_save := now }
  | .settings lang theme =>
    let p1 := if truthy lang then { p with language := lang.getD p.language } else p
    if truthy theme then { p1 with theme_color := theme.getD p1.theme_color } else p1
  | .updateName name =>
    if name.trim.length < 2 then p else { p with name := name.trim }

/-- Effect of a request sequence (oldest first). -/
def runOps (p : Player) (ops : List Op) : Player :=
  ops.foldl applyOp p

/-- A train request whose three deltas are non-negative integers, as the
contract states; every other request kind vacuously qualifies. -/
def nonNegDeltas : Op → Bool
  | .train req _ => decide (0 ≤ req.str) && decide (0 ≤ req.dex) && decide (0 ≤ req.vit)
  | _ => true

/-- The seeded achievement catalog (`initialAchievements`), upserted by id at
startup in insertion order. -/
def initialAchievements : List Achievement :=
  [ { id := "lvl_5"
      title_en := "Novice Slayer"
      title_th := "นักล่าฝึกหัด"
      description_en := "Reach Level 5"
      description_th := "เลเวลถึง 5"
      icon := "Sword"
      requirement_type := "level"
      requirement_value := 5 },
    { id := "str_10"
      title_en := "Brute Force"
      title_th := "พลังทำลายล้าง"
      description_en := "Reach 10 Strength"
      description_th := "ความแข็งแกร่งถึง 10"
      icon := "Dumbbell"
      requirement_type := "str"
      requirement_value := 10 },
    { id := "gold_1000"
      title_en := "Gold Digger"
      title_th := "นักขุดทอง"
      description_en := "Collect 1,000 Gold"
      description_th := "สะสมทองครบ 1,000"
      icon := "Coins"
      requirement_type := "gold"
      requirement_value := 1000 } ]

/-- What the first `/api/me` call for a never-seen identity must do: return a
row carrying the documented defaults, persist exactly that one row (no other
key of the store is touched), and let a second call return the same row with
the store unchanged. -/
def FreshGetMeSpec (store : Nat → Option Player) (uid : Nat) (uname : String)
    (now now2 : Nat) : Prop :=
  let r1 := getMe store uid uname now
  r1.2.level = 1 ∧ r1.2.exp = 0 ∧ r1.2.hp = 100 ∧ r1.2.max_hp = 100 ∧
  r1.2.gold = 500 ∧ r1.2.gems = 50 ∧ r1.2.weapon = "Wooden Sword" ∧
  r1.2.str = 1 ∧ r1.2.dex = 1 ∧ r1.2.vit = 1 ∧ r1.2.stat_points = 5 ∧
  r1.1 uid = some r1.2 ∧ (∀ j, j ≠ uid → r1.1 j = store j) ∧
  getMe r1.1 uid uname now2 = (r1.1, r1.2)

/-- A concrete player used by the witness theorems: the default row created
for a fresh identity (5 stat points, 1/1/1 attributes). -/
def examplePlayer : Player :=
  defaultPlayer "Hero" "Male" 0

/-- The row `examplePlayer` becomes after training with deltas (0, 0, 2) and
`pointsSpent = 2` at time 1. -/
def exampleTrained : Player :=
  { examplePlayer with
    vit := 3
    stat_points := 3
    max_hp := 130
    last_save := 1 }

/-! ## Supporting lemmas -/

/-- Any player row reachable from the creation defaults through any sequence
of mutating requests keeps `stat_points ≥ 0`: the train guard admits only
`pointsSpent ≤ stat_points`, and then `stat_points - pointsSpent ≥ 0`. -/
theorem statPoints_nonneg_reachable (name gender : String) (t0 : Nat)
    (ops : List Op) : 0 ≤ (runOps (defaultPlayer name gender t0) ops).stat_points := by
  have step : ∀ (p : Player) (op : Op),
      0 ≤ p.stat_points → 0 ≤ (applyOp p op).stat_points := by
    intro p op h
    cases op with
    | train req now =>
      by_cases hc : p.stat_points < req.pointsSpent
      · simpa [applyOp, train, hc] using h
      · simp only [applyOp, train, hc, if_false]
        omega
    | save now => simpa [applyOp] using h
    | settings lang theme =>
      simp only [applyOp]
      split <;> split <;> simpa using h
    | updateName n =>
      simp only [applyOp]
      split <;> simpa using h
  have main : ∀ (ops : List Op) (p : Player),
      0 ≤ p.stat_points → 0 ≤ (runOps p ops).stat_points := by
    intro ops
    induction ops with
    | nil => intro p h; simpa [runOps] using h
    | cons op rest ih =>
      intro p h
      have : runOps p (op :: rest) = runOps (applyOp p op) rest := by
        simp [runOps]
      rw [this]
      exact ih _ (step p op h)
  exact main ops _ (by simp [defaultPlayer])

/-! ## Claim theorems -/

/-- C1: for a train request on an existing player with
`stat_points ≥ pointsSpent`, the operation succeeds and the returned row adds
each of the three deltas to its attribute and subtracts the caller-supplied
`pointsSpent` from `stat_points`; no hypothesis relates `pointsSpent` to the
sum of the deltas. -/
theorem train_applies_deltas_and_spend_independently
    (p : Player) (req : TrainRequest) (now : Nat)
    (h : req.pointsSpent ≤ p.stat_points) :
    ∃ q : Player, train (some p) req now = .ok q ∧
      q.str = p.str + req.str ∧
      q.dex = p.dex + req.dex ∧
      q.vit = p.vit + req.vit ∧
      q.stat_points = p.stat_points - req.pointsSpent := by
  have hc : ¬ p.stat_points < req.pointsSpent := not_lt.mpr h
  exact ⟨{ p with str := p.str + req.str, dex := p.dex + req.dex, vit := p.vit + req.vit, stat_points := p.stat_points - req.pointsSpent, max_hp := 100 + (p.vit + req.vit) * 10, last_save := now }, by simp [train, hc], rfl, rfl, rfl, rfl⟩

/-- Witness for C1 at a concrete input whose `pointsSpent` (5) differs from
the sum of the deltas (2): the deduction and the increments are independent. -/
theorem train_applies_deltas_and_spend_independently_witness :
    (5 : Int) ≤ examplePlayer.stat_points ∧
    ∃ q : Player, train (some examplePlayer) ⟨2, 0, 0, 5⟩ 1 = .ok q ∧
      q.str = examplePlayer.str + 2 ∧
      q.dex = examplePlayer.dex + 0 ∧
      q.vit = examplePlayer.vit + 0 ∧
      q.stat_points = examplePlayer.stat_points - 5 :=
  ⟨by decide,
   train_applies_deltas_and_spend_independently examplePlayer ⟨2, 0, 0, 5⟩ 1 (by decide)⟩

/-- C2: a train request claiming more points than the player has is rejected
with the insufficient-points error, and the row is left completely unchanged
(every field, in particular stat_points, str, dex, vit, max_hp). -/
theorem train_insufficient_rejects_and_preserves
    (p : Player) (req : TrainRequest) (now : Nat)
    (h : p.stat_points < req.pointsSpent) :
    train (some p) req now = .error "Insufficient stat points" ∧
    applyOp p (.train req now) = p := by
  constructor
  · simp [train, h]
  · simp [applyOp, train, h]

/-- Witness for C2: the fresh default player (5 stat points) asked to spend
99. -/
theorem train_insufficient_rejects_and_preserves_witness :
    train (some examplePlayer) ⟨1, 1, 1, 99⟩ 7 = .error "Insufficient stat points" ∧
    applyOp examplePlayer (.train ⟨1, 1, 1, 99⟩ 7) = examplePlayer :=
  train_insufficient_rejects_and_preserves examplePlayer ⟨1, 1, 1, 99⟩ 7 (by decide)

/-- C4: whenever a train call succeeds, the returned (and persisted) row
satisfies `max_hp = 100 + vit * 10` for its post-operation vitality. -/
theorem train_maxhp_invariant (p : Player) (req : TrainRequest) (now : Nat)
    (q : Player) (h : train (some p) req now = .ok q) :
    q.max_hp = 100 + q.vit * 10 := by
  by_cases hc : p.stat_points < req.pointsSpent
  · simp [train, hc] at h
  · simp [train, hc] at h
    subst h
    ring

/-- Witness for C4: training the fresh default player with vitality delta 2
yields max_hp 130 = 100 + 3 * 10. -/
theorem train_maxhp_invariant_witness :
    exampleTrained.max_hp = 100 + exampleTrained.vit * 10 :=
  train_maxhp_invariant examplePlayer ⟨0, 0, 2, 2⟩ 1 exampleTrained rfl

/-- C7 counterexample: the train handler answers a non-existent player record
with exactly the same caller-facing message as the insufficient-points case
("Insufficient stat points" for both), so the two failure modes are not
distinguished. -/
theorem train_failure_messages_counterexample :
    train none ⟨1, 1, 1, 3⟩ 0 = .error "Insufficient stat points" ∧
    train (some examplePlayer) ⟨1, 1, 1, 99⟩ 0 = .error "Insufficient stat points" :=
  ⟨rfl, rfl⟩

/-- C7 amended: the train operation does NOT distinguish its two failure
modes; a missing player record and an insufficient-points request both fail
with the same caller-facing message "Insufficient stat points". -/
theorem train_failure_modes_share_message
    (p : Player) (req req2 : TrainRequest) (now now2 : Nat)
    (h : p.stat_points < req.pointsSpent) :
    train (some p) req now = .error "Insufficient stat points" ∧
    train none req2 now2 = .error "Insufficient stat points" := by
  constructor
  · simp [train, h]
  · rfl

/-- Witness for the amended C7. -/
theorem train_failure_modes_share_message_witness :
    train (some examplePlayer) ⟨0, 0, 0, 42⟩ 3 = .error "Insufficient stat points" ∧
    train none ⟨1, 1, 1, 3⟩ 4 = .error "Insufficient stat points" :=
  train_failure_modes_share_message examplePlayer ⟨0, 0, 0, 42⟩ ⟨1, 1, 1, 3⟩ 3 4 (by decide)

/-- C9: the save operation refreshes only the `last_save` timestamp; every
other field of the row is identical before and after. -/
theorem save_touches_only_timestamp (p : Player) (now : Nat) :
    (applyOp p (.save now)).name = p.name ∧
    (applyOp p (.save now)).gender = p.gender ∧
    (applyOp p (.save now)).level = p.level ∧
    (applyOp p (.save now)).exp = p.exp ∧
    (applyOp p (.save now)).hp = p.hp ∧
    (applyOp p (.save now)).max_hp = p.max_hp ∧
    (applyOp p (.save now)).gold = p.gold ∧
    (applyOp p (.save now)).gems = p.gems ∧
    (applyOp p (.save now)).weapon = p.weapon ∧
    (applyOp p (.save now)).str = p.str ∧
    (applyOp p (.save now)).dex = p.dex ∧
    (applyOp p (.save now)).vit = p.vit ∧
    (applyOp p (.save now)).stat_points = p.stat_points ∧
    (applyOp p (.save now)).language = p.language ∧
    (applyOp p (.save now)).theme_color = p.theme_color ∧
    (applyOp p (.save now)).last_save = now := by
  simp [applyOp]

/-- C10: the train handler performs no non-negativity check on `pointsSpent`:
for any existing player row (which always carries `stat_points ≥ 0`) and any
negative `pointsSpent`, the guard `stat_points < pointsSpent` is false, the
request is accepted, and `stat_points` strictly increases by
`|pointsSpent|`. -/
theorem train_negative_pointsSpent_accepted
    (p : Player) (req : TrainRequest) (now : Nat)
    (h0 : 0 ≤ p.stat_points) (hneg : req.pointsSpent < 0) :
    ¬ (p.stat_points < req.pointsSpent) ∧
    ∃ q : Player, train (some p) req now = .ok q ∧
      q.stat_points = p.stat_points + |req.pointsSpent| ∧
      p.stat_points < q.stat_points := by
  have hc : ¬ p.stat_points < req.pointsSpent := by omega
  refine ⟨hc, ⟨{ p with str := p.str + req.str, dex := p.dex + req.dex, vit := p.vit + req.vit, stat_points := p.stat_points - req.pointsSpent, max_hp := 100 + (p.vit + req.vit) * 10, last_save := now }, by simp [train, hc], ?_, ?_⟩⟩
  · show p.stat_points - req.pointsSpent = p.stat_points + |req.pointsSpent|
    rw [abs_of_neg hneg]
    ring
  · show p.stat_points < p.stat_points - req.pointsSpent
    omega

/-- Witness for C10: the fresh default player (5 stat points) sending
`pointsSpent = -3` ends with 8 stat points. -/
theorem train_negative_pointsSpent_accepted_witness :
    ¬ (examplePlayer.stat_points < (-3 : Int)) ∧
    ∃ q : Player, train (some examplePlayer) ⟨0, 0, 0, -3⟩ 2 = .ok q ∧
      q.stat_points = examplePlayer.stat_points + |(-3 : Int)| ∧
      examplePlayer.stat_points < q.stat_points :=
  train_negative_pointsSpent_accepted examplePlayer ⟨0, 0, 0, -3⟩ 2 (by decide) (by decide)

/-- C3: one achievement-evaluation call returns a sublist of the catalog (so
the result is in catalog order); an entry is in the result exactly when it is
a catalog entry whose id is not already unlocked and whose requirement is
met; the requirement is met exactly when its kind is level / str / gold and
the corresponding player field reaches the threshold — so any other kind is
never satisfied, and the recorded unlocks are exactly the returned entries. -/
theorem checkAchievements_characterization
    (p : Player) (catalog : List Achievement) (unlockedIds : List String) :
    (checkAchievements p catalog unlockedIds).Sublist catalog ∧
    (∀ ach, ach ∈ checkAchievements p catalog unlockedIds ↔
      ach ∈ catalog ∧ ach.id ∉ unlockedIds ∧ isMet p ach = true) ∧
    (∀ ach, isMet p ach = true ↔
      ((ach.requirement_type = "level" ∧ ach.requirement_value ≤ p.level) ∨
       (ach.requirement_type = "str" ∧ ach.requirement_value ≤ p.str) ∨
       (ach.requirement_type = "gold" ∧ ach.requirement_value ≤ p.gold))) ∧
    unlockedAfter p catalog unlockedIds =
      unlockedIds ++ (checkAchievements p catalog unlockedIds).map Achievement.id := by
  refine ⟨List.filter_sublist _, fun ach => ?_, fun ach => ?_, rfl⟩
  · simp [checkAchievements, List.mem_filter, and_assoc]
  · simp [isMet, and_comm, ge_iff_le, or_assoc]

/-- C5: evaluating achievements a second time, right after the unlocks of the
first call have been recorded and with the player and catalog unchanged,
unlocks nothing. -/
theorem checkAchievements_idempotent
    (p : Player) (catalog : List Achievement) (unlockedIds : List String) :
    checkAchievements p catalog (unlockedAfter p catalog unlockedIds) = [] := by
  rw [checkAchievements, List.filter_eq_nil_iff]
  intro ach hmem hpred
  simp only [List.elem_eq_mem, Bool.and_eq_true, Bool.not_eq_eq_eq_not,
    Bool.not_true, decide_eq_false_iff_not] at hpred
  obtain ⟨hc, hm⟩ := hpred
  apply hc
  rw [unlockedAfter]
  refine List.mem_append_right _ (List.mem_map.mpr ⟨ach, ?_, rfl⟩)
  rw [checkAchievements, List.mem_filter]
  refine ⟨hmem, ?_⟩
  simp only [List.elem_eq_mem, Bool.and_eq_true, Bool.not_eq_eq_eq_not,
    Bool.not_true, decide_eq_false_iff_not, hm, and_true]
  intro hx
  exact hc (List.mem_append_left _ hx)

/-- C6: over any sequence of mutating requests in which every train request
carries non-negative deltas (as the contract states), str, dex and vit never
decrease. -/
theorem attrs_monotone (p : Player) (ops : List Op)
    (h : ∀ op ∈ ops, nonNegDeltas op = true) :
    p.str ≤ (runOps p ops).str ∧ p.dex ≤ (runOps p ops).dex ∧
    p.vit ≤ (runOps p ops).vit := by
  induction ops generalizing p with
  | nil => simp [runOps]
  | cons op rest ih =>
    have hop : nonNegDeltas op = true := h op (List.mem_cons_self _ _)
    have hrest : ∀ o ∈ rest, nonNegDeltas o = true :=
      fun o ho => h o (List.mem_cons_of_mem _ ho)
    have step : p.str ≤ (applyOp p op).str ∧ p.dex ≤ (applyOp p op).dex ∧
        p.vit ≤ (applyOp p op).vit := by
      cases op with
      | train req now =>
        rw [nonNegDeltas, Bool.and_eq_true, Bool.and_eq_true] at hop
        obtain ⟨⟨h1, h2⟩, h3⟩ := hop
        rw [decide_eq_true_eq] at h1 h2 h3
        by_cases hc : p.stat_points < req.pointsSpent
        · simp [applyOp, train, hc]
        · simp only [applyOp, train, hc, if_false]
          refine ⟨?_, ?_, ?_⟩ <;> simp <;> omega
      | save now => simp [applyOp]
      | settings lang theme =>
        simp only [applyOp]
        split <;> split <;> simp
      | updateName n =>
        simp only [applyOp]
        split <;> simp
    have tail := ih (applyOp p op) hrest
    have hfold : runOps p (op :: rest) = runOps (applyOp p op) rest := by
      simp [runOps]
    rw [hfold]
    exact ⟨le_trans step.1 tail.1, le_trans step.2.1 tail.2.1,
      le_trans step.2.2 tail.2.2⟩

/-- Witness for C6: the default player through a train with non-negative
deltas, a save, a settings change and a rename. -/
theorem attrs_monotone_witness :
    (∀ op ∈ ([.train ⟨1, 1, 1, 3⟩ 0, .save 1, .settings (some "TH") none,
        .updateName "Slayer"] : List Op), nonNegDeltas op = true) ∧
    examplePlayer.str ≤ (runOps examplePlayer [.train ⟨1, 1, 1, 3⟩ 0, .save 1,
        .settings (some "TH") none, .updateName "Slayer"]).str ∧
    examplePlayer.dex ≤ (runOps examplePlayer [.train ⟨1, 1, 1, 3⟩ 0, .save 1,
        .settings (some "TH") none, .updateName "Slayer"]).dex ∧
    examplePlayer.vit ≤ (runOps examplePlayer [.train ⟨1, 1, 1, 3⟩ 0, .save 1,
        .settings (some "TH") none, .updateName "Slayer"]).vit :=
  ⟨by decide,
   attrs_monotone examplePlayer [.train ⟨1, 1, 1, 3⟩ 0, .save 1,
     .settings (some "TH") none, .updateName "Slayer"] (by decide)⟩

/-- C8: the first fetch-self for an identity with no player row creates
exactly one row with the documented defaults, persists it at that identity
only, returns it, and a second fetch returns the same row without creating
another. -/
theorem getMe_fresh_creates_defaults_once (store : Nat → Option Player)
    (uid : Nat) (uname : String) (now now2 : Nat) (h : store uid = none) :
    FreshGetMeSpec store uid uname now now2 := by
  rw [FreshGetMeSpec]
  simp only [getMe, h]
  refine ⟨rfl, rfl, rfl, rfl, rfl, rfl, rfl, rfl, rfl, rfl, rfl, ?_, ?_, ?_⟩
  · simp
  · intro j hj
    simp [hj]
  · simp

/-- Witness for C8: a store with no rows at all, identity 0. -/
theorem getMe_fresh_creates_defaults_once_witness :
    FreshGetMeSpec (fun _ => none) 0 "Hero" 0 1 :=
  getMe_fresh_creates_defaults_once (fun _ => none) 0 "Hero" 0 1 rfl
